import Mathlib

/-!
Verification of `src/main.py` (a Google-Maps listing scraper).

Python strings are modelled as `List Char`; Python `None`-able values as
`Option`; Python floats as `ℚ` (the numeric strings handled by the program
are plain decimal literals, which this models exactly); fallible calls into
the browser collaborator (Playwright) are modelled as oracles recording, for
each call site, whether the call returned (and with what value) or raised.
-/

namespace Picker

/-- Model of Python's notion of (ASCII) whitespace, as used by `str.strip()`
and no-argument `str.split()`.  (Python also accepts further Unicode
whitespace; the program's inputs are ASCII.) -/
def isPySpace (c : Char) : Bool :=
  c = ' ' || c = '\t' || c = '\n' || c = '\r'

/-- Model of Python `str.strip()`: drop whitespace from both ends. -/
def pyStrip (s : List Char) : List Char :=
  ((s.dropWhile isPySpace).reverse.dropWhile isPySpace).reverse

/-- Numeric value of a list of decimal digit characters (most significant first). -/
def digitsVal (ds : List Char) : Nat :=
  ds.foldl (fun n c => 10 * n + (c.toNat - 48)) 0

/-- Body of Python `int(s)` after sign handling: a nonempty run of decimal
digits, else `ValueError` (modelled as `none`). -/
def pyIntAbs (ds : List Char) : Option Nat :=
  if !ds.isEmpty && ds.all Char.isDigit then some (digitsVal ds) else none

/-- Model of Python `int(s)` on a string: strip whitespace, optional sign,
then a nonempty run of decimal digits; anything else raises `ValueError`,
modelled as `none`.  (Underscore separators and non-ASCII digits, which
Python also accepts, are not modelled; the program never meets them.) -/
def pyInt (s : List Char) : Option Int :=
  match pyStrip s with
  | [] => none
  | c :: ds =>
      if c = '+' then (pyIntAbs ds).map (fun n => (n : Int))
      else if c = '-' then (pyIntAbs ds).map (fun n => -(n : Int))
      else (pyIntAbs (c :: ds)).map (fun n => (n : Int))

/-- Unsigned part of Python `float(s)`: `digits`, `digits.`, `digits.digits`
or `.digits` (exponents, `inf` and `nan`, which the program never meets, are
not modelled). -/
def pyFloatCore (s : List Char) : Option ℚ :=
  match s.dropWhile Char.isDigit with
  | [] =>
      if (s.takeWhile Char.isDigit).isEmpty then none
      else some (mkRat (digitsVal (s.takeWhile Char.isDigit) : Int) 1)
  | '.' :: fp =>
      if ((s.takeWhile Char.isDigit).isEmpty && fp.isEmpty) || !fp.all Char.isDigit then none
      else
        some (mkRat
          ((digitsVal (s.takeWhile Char.isDigit) * 10 ^ fp.length + digitsVal fp : Nat) : Int)
          (10 ^ fp.length))
  | _ => none

/-- Model of Python `float(s)` on a string: strip whitespace, optional sign,
then an unsigned decimal literal; parse failure (`ValueError`) is `none`. -/
def pyFloat (s : List Char) : Option ℚ :=
  match pyStrip s with
  | [] => none
  | c :: r =>
      if c = '+' then pyFloatCore r
      else if c = '-' then (pyFloatCore r).map (fun q => -q)
      else pyFloatCore (c :: r)

/-- Worker for `pySplitWs`: `acc` holds the (reversed) token being read. -/
def wsGo (acc : List Char) : List Char → List (List Char)
  | [] => if acc.isEmpty then [] else [acc.reverse]
  | c :: rest =>
      if isPySpace c then
        if acc.isEmpty then wsGo [] rest else acc.reverse :: wsGo [] rest
      else wsGo (c :: acc) rest

/-- Model of Python no-argument `str.split()`: split on runs of whitespace,
producing no empty tokens. -/
def pySplitWs (s : List Char) : List (List Char) :=
  wsGo [] s

/-- Model of Python `str.split(sep)` for a single-character separator `sep`:
split at every occurrence, keeping empty pieces. -/
def splitChar (sep : Char) : List Char → List (List Char)
  | [] => [[]]
  | c :: rest =>
      if c = sep then [] :: splitChar sep rest
      else
        match splitChar sep rest with
        | [] => [[c]]
        | t :: ts => (c :: t) :: ts

/-- Model of Python `str.split("/@")` (the one two-character separator the
program uses): split at every leftmost-first occurrence of `/@`. -/
def splitSA : List Char → List (List Char)
  | [] => [[]]
  | [c] => [[c]]
  | c :: d :: rest =>
      if c = '/' ∧ d = '@' then [] :: splitSA rest
      else
        match splitSA (d :: rest) with
        | [] => [[c]]
        | t :: ts => (c :: t) :: ts

/-- Whether the two-character substring `/@` occurs anywhere in `s`. -/
def hasSA : List Char → Bool
  | [] => false
  | [_] => false
  | c :: d :: rest => if c = '/' ∧ d = '@' then true else hasSA (d :: rest)

/-- Abbreviation: the character list of a string literal. -/
def pys (s : String) : List Char :=
  s.data

/-- Embedding of `extract_coordinates_from_url` (src/main.py lines 46-52):

    coordinates = url.split('/@')[-1].split('/')[0]
    return float(coordinates.split(',')[0]), float(coordinates.split(',')[1])
    except: return None, None

`split` always returns a nonempty list, so the `[-1]` and `[0]` never raise;
the only failures are a missing second comma field (`IndexError`) or a float
parse failure (`ValueError`), both of which the bare `except` turns into
`(None, None)`. -/
def extract_coordinates_from_url (url : List Char) : Option ℚ × Option ℚ :=
  match splitChar ',' ((splitChar '/' ((splitSA url).getLastD [])).headD []) with
  | p0 :: p1 :: _ =>
      match pyFloat p0, pyFloat p1 with
      | some a, some b => (some a, some b)
      | _, _ => (none, none)
  | _ => (none, none)

/-- Embedding of `int(review_text.split()[0].replace(',', '').strip())`
(src/main.py line 95).  `split()` of a blank string is `[]`, so the `[0]`
raises `IndexError`; that and a `ValueError` from `int` are both caught by
the surrounding bare `except`, modelled as `none`. -/
def parseReviewCount (review_text : List Char) : Option Int :=
  match pySplitWs review_text with
  | [] => none
  | w :: _ => pyInt (pyStrip (w.filter (fun c => c ≠ ',')))

/-- Embedding of `float(avg_text.split()[0].replace(',', '.').strip())`
(src/main.py line 102). -/
def parseReviewsAverage (avg_text : List Char) : Option ℚ :=
  match pySplitWs avg_text with
  | [] => none
  | w :: _ => pyFloat (pyStrip (w.map (fun c => if c = ',' then '.' else c)))

/-- Outcome of one `page.locator(xpath).first.is_visible(timeout=500)` check
followed (when visible) by an `inner_text()` extraction:
  * `vis s`      — `is_visible` returned `True`, `inner_text()` returned `s`;
  * `visRaise`   — `is_visible` returned `True`, `inner_text()` raised;
  * `hidden`     — `is_visible` returned `False` (element absent/not visible;
                   Playwright's `is_visible` reports absence by returning
                   `False`, it does not raise);
  * `checkRaise` — `is_visible` itself raised. -/
inductive TextProbe where
  | vis (s : List Char)
  | visRaise
  | hidden
  | checkRaise
deriving DecidableEq

/-- Same for the `reviews_average` field, whose extraction is
`get_attribute(name_attribute)` and may return Python `None` (`vis none`). -/
inductive AttrProbe where
  | vis (s : Option (List Char))
  | visRaise
  | hidden
  | checkRaise
deriving DecidableEq

/-- Oracle recording one listing's interaction with the live page inside
`scrape_business_details` (src/main.py lines 54-112):
  * `clickOk` — whether `listing.click()` and the settle
    `page.wait_for_timeout(2000)` returned without raising;
  * `nameAttr` — result of `listing.get_attribute(name_attribute)`:
    `none` if the call raised, otherwise `some v` with `v` the returned
    attribute value (Python `None` modelled as `some Option.none`);
  * one probe per field try-block, in source order;
  * `url` — the value of `page.url` after the click. -/
structure PageModel where
  clickOk : Bool
  nameAttr : Option (Option (List Char))
  address : TextProbe
  website : TextProbe
  phone_number : TextProbe
  reviews_count : TextProbe
  reviews_average : AttrProbe
  url : List Char
deriving DecidableEq

/-- Embedding of the `Business` dataclass (src/main.py lines 12-22).  Every
field defaults to Python `None`, modelled as `none`. -/
structure Business where
  name : Option (List Char) := none
  address : Option (List Char) := none
  website : Option (List Char) := none
  phone_number : Option (List Char) := none
  reviews_count : Option Int := none
  reviews_average : Option ℚ := none
  latitude : Option ℚ := none
  longitude : Option ℚ := none
deriving DecidableEq

/-- Embedding of `scrape_business_details` (src/main.py lines 54-112).
The outer `try` covers the click, the settle wait and the name attribute
read; a raise there reaches the outer `except`, which logs and returns
`None`.  Each field has its own `try`: the `except` branch assigns `""`
(for address/website/phone) or `None` (for the review fields), while an
`is_visible` check that returns `False` skips the assignment entirely,
leaving the dataclass default `None`.  Coordinates come from
`extract_coordinates_from_url(page.url)`. -/
def scrape_business_details (page : PageModel) : Option Business :=
  if page.clickOk = false then none
  else
    match page.nameAttr with
    | none => none
    | some nm =>
        some
          { name := some (nm.getD [])
            address :=
              match page.address with
              | .vis s => some s
              | .visRaise => some []
              | .hidden => none
              | .checkRaise => some []
            website :=
              match page.website with
              | .vis s => some s
              | .visRaise => some []
              | .hidden => none
              | .checkRaise => some []
            phone_number :=
              match page.phone_number with
              | .vis s => some s
              | .visRaise => some []
              | .hidden => none
              | .checkRaise => some []
            reviews_count :=
              match page.reviews_count with
              | .vis s => parseReviewCount s
              | .visRaise => none
              | .hidden => none
              | .checkRaise => none
            reviews_average :=
              match page.reviews_average with
              | .vis (some s) => parseReviewsAverage s
              | .vis none => none
              | .visRaise => none
              | .hidden => none
              | .checkRaise => none
            latitude := (extract_coordinates_from_url page.url).1
            longitude := (extract_coordinates_from_url page.url).2 }

/-- What the code assigns to the address/website/phone fields, as a function
of that field's own probe (value for the visible case, `""` for a raise in
the check or the extraction, dataclass-default `None` when `is_visible`
returned `False`). -/
def fieldFromProbe : TextProbe → Option (List Char)
  | .vis s => some s
  | .visRaise => some []
  | .hidden => none
  | .checkRaise => some []

/-- What the code assigns to `reviews_count`, as a function of that field's
own probe. -/
def countFromProbe : TextProbe → Option Int
  | .vis s => parseReviewCount s
  | .visRaise => none
  | .hidden => none
  | .checkRaise => none

/-- What the code assigns to `reviews_average`, as a function of that
field's own probe. -/
def avgFromProbe : AttrProbe → Option ℚ
  | .vis (some s) => parseReviewsAverage s
  | .vis none => none
  | .visRaise => none
  | .hidden => none
  | .checkRaise => none

/-- Whether the work inside the outer `try` of `scrape_business_details`
that precedes the per-field blocks — the click, the settle wait and the
name attribute read — completed without raising.  Exactly these calls
decide whether the listing contributes a record. -/
def outerTryOk (page : PageModel) : Bool :=
  page.clickOk && page.nameAttr.isSome

/-- Embedding of the per-query listing loop of `main` (src/main.py lines
223-229): each listing is scraped and appended exactly when
`scrape_business_details` returned a record. -/
def runQuery (pages : List PageModel) : List Business :=
  pages.filterMap scrape_business_details

/-- Embedding of the outer query loop of `main` (src/main.py lines 205-231):
records accumulate into the one shared `all_businesses` list, in order. -/
def runAll (queries : List (List PageModel)) : List Business :=
  (queries.map runQuery).flatten

/-- Worker for `scroll_and_load_listings` (src/main.py lines 124-146); the
live results panel is modelled as the list of page states seen by the
successive polls, each page state being the list of listing links currently
rendered (`current_count` is its length).  Returns the page state at the
`break` together with the number of polls executed, or `none` if the
modelled poll sequence is exhausted while the loop would keep scrolling. -/
def scrollGo {E : Type} (total : Nat) :
    List (List E) → Nat → Nat → Nat → Option (List E × Nat)
  | [], _, _, _ => none
  | pg :: rest, previously_counted, same_count_iterations, polls =>
      let current_count := pg.length
      if current_count ≥ total then some (pg, polls + 1)
      else if current_count = previously_counted then
        if same_count_iterations + 1 ≥ 2 then some (pg, polls + 1)
        else scrollGo total rest previously_counted (same_count_iterations + 1) (polls + 1)
      else scrollGo total rest current_count 0 (polls + 1)

/-- Embedding of `scroll_and_load_listings` (src/main.py lines 114-153).
After the loop breaks, the code re-collects the links (`all()[:total]`) from
the unchanged page state and replaces each link by its parent container
(`listing.locator("xpath=..")`), modelled by the abstract `parent` map.
The result also carries the number of polls the loop performed. -/
def scroll_and_load_listings {E : Type} (parent : E → E) (pages : List (List E))
    (total : Nat) : Option (List E × Nat) :=
  (scrollGo total pages 0 0 0).map (fun r => ((r.1.take total).map parent, r.2))

/-- The scroll-poll loop of src/main.py lines 124-146 once more, this time
over an infinite sequence of polled counts (`counts i` is the count the
`i`-th poll would observe) with an explicit fuel bound, for the termination
claim: `none` means the loop is still running after `fuel` polls. -/
def scrollGoF (counts : Nat → Nat) (total : Nat) :
    Nat → Nat → Nat → Nat → Option (Nat × Nat)
  | 0, _, _, _ => none
  | fuel + 1, i, previously_counted, same_count_iterations =>
      let current_count := counts i
      if current_count ≥ total then some (i + 1, current_count)
      else if current_count = previously_counted then
        if same_count_iterations + 1 ≥ 2 then some (i + 1, current_count)
        else scrollGoF counts total fuel (i + 1) previously_counted (same_count_iterations + 1)
      else scrollGoF counts total fuel (i + 1) current_count 0

/-- Command-line arguments of `main` (src/main.py lines 156-161) after
argparse: `search` is `None` or the given string, etc. -/
structure Args where
  search : Option (List Char)
  total : Option Int
  output : List Char
  headless : Bool
deriving DecidableEq

/-- Model of Python truthiness of an `Optional[str]` (`if args.search:`):
`None` and the empty string are falsy. -/
def pyTruthyStr : Option (List Char) → Bool
  | none => false
  | some s => !s.isEmpty

/-- Python `sys.exit()` *with no argument* raises `SystemExit(None)`, and
the interpreter then terminates with exit status `0`. -/
def sysExitNoArgStatus : Nat := 0

/-- How the query-selection phase of `main` ends (src/main.py lines
166-178): either the process exits (after printing the error message and
before any browser/Playwright session is created), or execution proceeds to
`sync_playwright()` with the given query list. -/
inductive MainOutcome where
  | exitNoQuery (printedError : Bool) (exitCode : Nat)
  | openBrowser (queries : List (List Char))
deriving DecidableEq

/-- Embedding of the pre-browser part of `main` (src/main.py lines 166-178).
`inputFile` is `none` when `input.txt` does not exist, else the file's
lines.  A truthy `--search` wins; otherwise the file's stripped non-blank
lines are used; if no query results, the error message is printed and
`sys.exit()` (no argument) runs. -/
def mainPre (args : Args) (inputFile : Option (List (List Char))) : MainOutcome :=
  if pyTruthyStr args.search then .openBrowser [args.search.getD []]
  else
    let search_list := ((inputFile.getD []).map pyStrip).filter (fun l => !l.isEmpty)
    if search_list.isEmpty then .exitNoQuery true sysExitNoArgStatus
    else .openBrowser search_list

/-- The data-model ranges stated by the spec for the two review fields:
`reviews_count` non-negative or absent, `reviews_average` in `[0, 5]` or
absent.  (Spec-side definition, for comparison with what the code ensures.) -/
def specReviewRangesOk (b : Business) : Bool :=
  (match b.reviews_count with
   | none => true
   | some n => decide (0 ≤ n)) &&
  (match b.reviews_average with
   | none => true
   | some q => decide (0 ≤ q) && decide (q ≤ 5))

/-! Concrete fixtures used by counterexamples and witnesses. -/

/-- A listing whose click, settle and name read succeed and whose address
region is simply absent: `is_visible` returns `False` without raising. -/
def pageC3 : PageModel :=
  { clickOk := true, nameAttr := some (some (pys "Cafe X")), address := .hidden
    website := .vis (pys "cafex.example"), phone_number := .vis (pys "555-0100")
    reviews_count := .hidden, reviews_average := .hidden, url := pys "m/@1.5,2.5,14z/d" }

/-- A listing exercising each per-field outcome for the witness of the
amended C3 statement. -/
def pageC3w : PageModel :=
  { clickOk := true, nameAttr := some none, address := .vis (pys "1 Main St")
    website := .hidden, phone_number := .checkRaise, reviews_count := .visRaise
    reviews_average := .vis none, url := pys "nocoords" }

/-- The record `scrape_business_details` produces for `pageC3w`. -/
def businessC3w : Business :=
  { name := some [], address := some (pys "1 Main St"), website := none
    phone_number := some [], reviews_count := none, reviews_average := none
    latitude := none, longitude := none }

/-- A listing whose review-count display text carries a negative number:
the code parses and stores it without any range check. -/
def pageC4 : PageModel :=
  { clickOk := true, nameAttr := some (some (pys "Bad Reviews Inc")), address := .hidden
    website := .hidden, phone_number := .hidden, reviews_count := .vis (pys "-5 reviews")
    reviews_average := .vis (some (pys "9.9 stars")), url := pys "x" }

/-- A well-behaved listing for the witness of the amended C4 statement. -/
def pageC4w : PageModel :=
  { clickOk := true, nameAttr := some (some (pys "B")), address := .hidden
    website := .hidden, phone_number := .hidden, reviews_count := .vis (pys "12 reviews")
    reviews_average := .vis (some (pys "4.8 stars")), url := pys "x" }

/-- The record `scrape_business_details` produces for `pageC4w`. -/
def businessC4w : Business :=
  { name := some (pys "B"), address := none, website := none, phone_number := none
    reviews_count := some 12, reviews_average := some (mkRat 24 5)
    latitude := none, longitude := none }

/-- A listing with coordinates in its detail URL, for the C6 witness. -/
def pageC6w : PageModel :=
  { clickOk := true, nameAttr := some (some (pys "C")), address := .hidden
    website := .hidden, phone_number := .hidden, reviews_count := .hidden
    reviews_average := .hidden, url := pys "maps/place/@41.5,-2.25,14z/data" }

/-- The record `scrape_business_details` produces for `pageC6w`. -/
def businessC6w : Business :=
  { name := some (pys "C"), address := none, website := none, phone_number := none
    reviews_count := none, reviews_average := none
    latitude := some (mkRat 83 2), longitude := some (mkRat (-9) 4) }

/-- A listing whose review texts are the spec's well-formed examples. -/
def pageC7 : PageModel :=
  { clickOk := true, nameAttr := some (some (pys "D")), address := .hidden
    website := .hidden, phone_number := .hidden
    reviews_count := .vis (pys "1,234 reviews")
    reviews_average := .vis (some (pys "4,5 stars")), url := pys "x" }

/-- A listing whose activation (click and settle wait) succeeds but whose
name-attribute read raises: the outer `except` then drops the listing. -/
def pageC9 : PageModel :=
  { clickOk := true, nameAttr := none, address := .vis (pys "2 Side St")
    website := .vis (pys "w"), phone_number := .vis (pys "p")
    reviews_count := .vis (pys "3 reviews"), reviews_average := .vis (some (pys "4.0"))
    url := pys "m/@1.5,2.5,14z" }

/-- The constant poll-count sequence used by the C10 witness. -/
def constCounts7 : Nat → Nat :=
  fun _ => 7

/-! Sanity checks of the embedding on concrete inputs (Python-behaviour
cross-checks). -/

example : pyInt (pys "1234") = some 1234 := by decide
example : pyInt (pys " -07 ") = some (-7) := by decide
example : pyInt (pys "12.5") = none := by decide
example : pyInt (pys "+") = none := by decide
example : pyFloat (pys "4.5") = some (mkRat 9 2) := by decide
example : pyFloat (pys "-2.25") = some (mkRat (-9) 4) := by decide
example : pyFloat (pys ".") = none := by decide
example : pyFloat (pys "1.") = some 1 := by decide
example : pySplitWs (pys "  1,234  reviews ") = [pys "1,234", pys "reviews"] := by decide
example : splitChar ',' (pys "1.5,2.5,10z") = [pys "1.5", pys "2.5", pys "10z"] := by decide
example : splitSA (pys "a/@b/@c") = [pys "a", pys "b", pys "c"] := by decide
example : splitSA (pys "ab") = [pys "ab"] := by decide
example : splitSA (pys "/@x/@") = [[], pys "x", []] := by decide
example : hasSA (pys "x/y@z") = false := by decide
example :
    extract_coordinates_from_url (pys "https://maps/place/@12.5,-3.25,14z/data") =
      (some (mkRat 25 2), some (mkRat (-13) 4)) := by decide
example : extract_coordinates_from_url (pys "no coordinates here") = (none, none) := by decide
example : extract_coordinates_from_url [] = (none, none) := by decide
example : parseReviewCount (pys "1,234 reviews") = some 1234 := by decide
example : parseReviewCount (pys "   ") = none := by decide
example : parseReviewsAverage (pys "4,5 stars") = some (mkRat 9 2) := by decide
example :
    scrape_business_details pageC7 =
      some
        { name := some (pys "D"), address := none, website := none, phone_number := none
          reviews_count := some 1234, reviews_average := some (mkRat 9 2)
          latitude := none, longitude := none } := by decide
example :
    scroll_and_load_listings Nat.succ [List.range 5, List.range 20, List.range 45] 20 =
      some ((List.range 20).map Nat.succ, 2) := by decide
example : scrollGoF constCounts7 100 3 0 0 0 = some (3, 7) := by decide
example :
    mainPre { search := none, total := none, output := pys "google_maps_results",
              headless := false } none = .exitNoQuery true 0 := by decide

/-! Lemmas about the string-splitting models. -/

theorem splitChar_ne_nil (sep : Char) : ∀ s : List Char, splitChar sep s ≠ []
  | [] => by simp [splitChar]
  | c :: rest => by
      rw [splitChar]
      split
      · simp
      · split <;> simp

theorem splitChar_cons_head (sep : Char) (c : Char) (hc : c ≠ sep) (rest : List Char) :
    splitChar sep (c :: rest) =
      (c :: (splitChar sep rest).headD []) :: (splitChar sep rest).tail := by
  rw [splitChar, if_neg hc]
  rcases h : splitChar sep rest with _ | ⟨t, ts⟩
  · exact absurd h (splitChar_ne_nil sep rest)
  · simp

theorem splitChar_no_sep (sep : Char) : ∀ u : List Char, sep ∉ u → splitChar sep u = [u]
  | [], _ => rfl
  | c :: rest, h => by
      have hc : c ≠ sep := fun hh => h (hh ▸ List.mem_cons_self c rest)
      have hr : sep ∉ rest := fun hh => h (List.mem_cons_of_mem c hh)
      rw [splitChar, if_neg hc, splitChar_no_sep sep rest hr]

theorem splitChar_append_sep (sep : Char) :
    ∀ u : List Char, sep ∉ u → ∀ v : List Char,
      splitChar sep (u ++ sep :: v) = u :: splitChar sep v
  | [], _, v => by
      rw [List.nil_append, splitChar, if_pos rfl]
  | c :: rest, h, v => by
      have hc : c ≠ sep := fun hh => h (hh ▸ List.mem_cons_self c rest)
      have hr : sep ∉ rest := fun hh => h (List.mem_cons_of_mem c hh)
      rw [List.cons_append, splitChar, if_neg hc,
        splitChar_append_sep sep rest hr v]

theorem splitChar_headD_append (sep : Char) :
    ∀ w : List Char, sep ∉ w → ∀ v : List Char,
      (splitChar sep (w ++ v)).headD [] = w ++ (splitChar sep v).headD []
  | [], _, v => by rw [List.nil_append, List.nil_append]
  | c :: rest, h, v => by
      have hc : c ≠ sep := fun hh => h (hh ▸ List.mem_cons_self c rest)
      have hr : sep ∉ rest := fun hh => h (List.mem_cons_of_mem c hh)
      rw [List.cons_append, splitChar_cons_head sep c hc,
        splitChar_headD_append sep rest hr v]
      simp

theorem splitSA_ne_nil : ∀ s : List Char, splitSA s ≠ []
  | [] => by simp [splitSA]
  | [c] => by simp [splitSA]
  | c :: d :: rest => by
      rw [splitSA]
      split
      · simp
      · split <;> simp

theorem splitSA_of_not_hasSA : ∀ s : List Char, hasSA s = false → splitSA s = [s]
  | [], _ => rfl
  | [c], _ => rfl
  | c :: d :: rest, h => by
      have hcd : ¬(c = '/' ∧ d = '@') := by
        intro hh
        rw [hasSA, if_pos hh] at h
        exact Bool.noConfusion h
      have hr : hasSA (d :: rest) = false := by
        rw [hasSA, if_neg hcd] at h
        exact h
      rw [splitSA, if_neg hcd, splitSA_of_not_hasSA (d :: rest) hr]

/-- After splitting at `/@`, the last piece of `a ++ "/@" ++ m` is exactly
`m`, provided `/@` does not occur inside `m` — i.e. the code's
`url.split('/@')[-1]` really is "the text after the last `/@`". -/
theorem splitSA_append_sep (m : List Char) (hm : hasSA m = false) :
    ∀ a : List Char,
      2 ≤ (splitSA (a ++ '/' :: '@' :: m)).length ∧
        (splitSA (a ++ '/' :: '@' :: m)).getLastD [] = m := by
  suffices H : ∀ (n : Nat) (a : List Char), a.length ≤ n →
      2 ≤ (splitSA (a ++ '/' :: '@' :: m)).length ∧
        (splitSA (a ++ '/' :: '@' :: m)).getLastD [] = m by
    exact fun a => H a.length a le_rfl
  intro n
  induction n using Nat.strong_induction_on with
  | _ n ih =>
    intro a ha
    match a with
    | [] =>
      rw [List.nil_append, splitSA, if_pos ⟨rfl, rfl⟩, splitSA_of_not_hasSA m hm]
      exact ⟨by simp, by simp [List.getLastD]⟩
    | [c] =>
      have h1 : splitSA ('/' :: '@' :: m) = [] :: [m] := by
        rw [splitSA, if_pos ⟨rfl, rfl⟩, splitSA_of_not_hasSA m hm]
      have hcd : ¬(c = '/' ∧ ('/' : Char) = '@') := by
        rintro ⟨-, h2⟩
        exact absurd h2 (by decide)
      rw [List.cons_append, List.nil_append, splitSA, if_neg hcd, h1]
      exact ⟨by simp, by simp [List.getLastD]⟩
    | c :: d :: a'' =>
      by_cases hcd : c = '/' ∧ d = '@'
      · obtain ⟨hc, hd⟩ := hcd
        subst hc hd
        have hlen : a''.length < n := by
          simp only [List.length_cons] at ha
          omega
        obtain ⟨h2, hlast⟩ := ih a''.length hlen a'' le_rfl
        rw [List.cons_append, List.cons_append, splitSA, if_pos ⟨rfl, rfl⟩]
        constructor
        · simpa using Nat.le_succ_of_le h2
        · obtain ⟨t, ts, heq⟩ : ∃ t ts, splitSA (a'' ++ '/' :: '@' :: m) = t :: ts := by
            rcases hsp : splitSA (a'' ++ '/' :: '@' :: m) with _ | ⟨t, ts⟩
            · exact absurd hsp (splitSA_ne_nil _)
            · exact ⟨t, ts, rfl⟩
          rw [heq] at hlast ⊢
          simpa [List.getLastD] using hlast
      · have hlen : (d :: a'').length < n := by
          simp only [List.length_cons] at ha ⊢
          omega
        obtain ⟨h2, hlast⟩ := ih (d :: a'').length hlen (d :: a'') le_rfl
        rw [List.cons_append] at h2 hlast
        rw [List.cons_append, List.cons_append, splitSA]
        rw [if_neg hcd]
        obtain ⟨t, ts, heq⟩ : ∃ t ts, splitSA (d :: (a'' ++ '/' :: '@' :: m)) = t :: ts := by
          rcases hsp : splitSA (d :: (a'' ++ '/' :: '@' :: m)) with _ | ⟨t, ts⟩
          · exact absurd hsp (splitSA_ne_nil _)
          · exact ⟨t, ts, rfl⟩
        rw [heq]
        rw [heq] at hlast h2
        rcases ts with _ | ⟨u, us⟩
        · simp at h2
        · refine ⟨by simp, ?_⟩
          simpa [List.getLastD] using hlast

/-! Lemmas about the numeric-string models. -/

theorem mem_of_mem_pyStrip {c : Char} {s : List Char} (h : c ∈ pyStrip s) : c ∈ s := by
  unfold pyStrip at h
  rw [List.mem_reverse] at h
  have h2 := (List.dropWhile_sublist isPySpace).mem h
  rw [List.mem_reverse] at h2
  exact (List.dropWhile_sublist isPySpace).mem h2

theorem wsGo_head_mem :
    ∀ (s acc : List Char) {w : List Char} {ws : List (List Char)},
      wsGo acc s = w :: ws → ∀ c ∈ w, c ∈ acc ∨ c ∈ s := by
  intro s
  induction s with
  | nil =>
    intro acc w ws h c hc
    rw [wsGo] at h
    by_cases ha : acc.isEmpty = true
    · rw [if_pos ha] at h
      exact absurd h (by simp)
    · rw [if_neg ha] at h
      injection h with h1 h2
      subst h1
      exact Or.inl (List.mem_reverse.mp hc)
  | cons d rest ih =>
    intro acc w ws h c hc
    rw [wsGo] at h
    by_cases hd : isPySpace d = true
    · rw [if_pos hd] at h
      by_cases ha : acc.isEmpty = true
      · rw [if_pos ha] at h
        rcases ih [] h c hc with h' | h'
        · exact absurd h' (by simp)
        · exact Or.inr (List.mem_cons_of_mem d h')
      · rw [if_neg ha] at h
        injection h with h1 h2
        subst h1
        exact Or.inl (List.mem_reverse.mp hc)
    · rw [if_neg hd] at h
      rcases ih (d :: acc) h c hc with h' | h'
      · rcases List.mem_cons.mp h' with h'' | h''
        · exact Or.inr (h'' ▸ List.mem_cons_self d rest)
        · exact Or.inl h''
      · exact Or.inr (List.mem_cons_of_mem d h')

theorem mem_of_mem_pySplitWs_head {s w : List Char} {ws : List (List Char)}
    (h : pySplitWs s = w :: ws) {c : Char} (hc : c ∈ w) : c ∈ s := by
  rcases wsGo_head_mem s [] h c hc with h' | h'
  · exact absurd h' (by simp)
  · exact h'

theorem mkRat_nat_nonneg (n d : Nat) : 0 ≤ mkRat (n : Int) d := by
  rw [Rat.mkRat_eq_div]
  positivity

theorem pyIntAbs_eq_none_of_no_digit {ds : List Char}
    (h : ∀ c ∈ ds, c.isDigit = false) : pyIntAbs ds = none := by
  unfold pyIntAbs
  rcases ds with _ | ⟨e, es⟩
  · simp
  · rw [if_neg]
    simp [h e (List.mem_cons_self e es)]

theorem pyInt_eq_none_of_no_digit {t : List Char}
    (h : ∀ c ∈ t, c.isDigit = false) : pyInt t = none := by
  have hstrip : ∀ c ∈ pyStrip t, c.isDigit = false :=
    fun c hc => h c (mem_of_mem_pyStrip hc)
  unfold pyInt
  split
  · rfl
  · rename_i c ds hs
    rw [hs] at hstrip
    have hds : ∀ e ∈ ds, e.isDigit = false :=
      fun e he => hstrip e (List.mem_cons_of_mem c he)
    have hcds : ∀ e ∈ c :: ds, e.isDigit = false := hstrip
    by_cases hp : c = '+'
    · rw [if_pos hp, pyIntAbs_eq_none_of_no_digit hds]
      rfl
    · rw [if_neg hp]
      by_cases hmn : c = '-'
      · rw [if_pos hmn, pyIntAbs_eq_none_of_no_digit hds]
        rfl
      · rw [if_neg hmn, pyIntAbs_eq_none_of_no_digit hcds]
        rfl

theorem pyInt_nonneg_of_no_neg {t : List Char} (hneg : '-' ∉ t) {n : Int}
    (h : pyInt t = some n) : 0 ≤ n := by
  unfold pyInt at h
  split at h
  · exact absurd h (by simp)
  · rename_i c ds hs
    have hc : c ≠ '-' := by
      intro hceq
      subst hceq
      refine hneg (mem_of_mem_pyStrip ?_)
      rw [hs]
      exact List.mem_cons_self '-' ds
    by_cases hp : c = '+'
    · rw [if_pos hp] at h
      rcases ho : pyIntAbs ds with _ | m
      · rw [ho] at h
        exact absurd h (by simp)
      · rw [ho] at h
        injection h with h
        subst h
        exact Int.natCast_nonneg m
    · rw [if_neg hp, if_neg hc] at h
      rcases ho : pyIntAbs (c :: ds) with _ | m
      · rw [ho] at h
        exact absurd h (by simp)
      · rw [ho] at h
        injection h with h
        subst h
        exact Int.natCast_nonneg m

theorem pyFloatCore_nonneg {s : List Char} {q : ℚ} (h : pyFloatCore s = some q) : 0 ≤ q := by
  unfold pyFloatCore at h
  split at h
  · split at h
    · exact absurd h (by simp)
    · injection h with h
      subst h
      exact mkRat_nat_nonneg _ _
  · split at h
    · exact absurd h (by simp)
    · injection h with h
      subst h
      exact mkRat_nat_nonneg _ _
  · exact absurd h (by simp)

theorem pyFloat_nonneg_of_no_neg {t : List Char} (hneg : '-' ∉ t) {q : ℚ}
    (h : pyFloat t = some q) : 0 ≤ q := by
  unfold pyFloat at h
  split at h
  · exact absurd h (by simp)
  · rename_i c r hs
    have hc : c ≠ '-' := by
      intro hceq
      subst hceq
      refine hneg (mem_of_mem_pyStrip ?_)
      rw [hs]
      exact List.mem_cons_self '-' r
    by_cases hp : c = '+'
    · rw [if_pos hp] at h
      exact pyFloatCore_nonneg h
    · rw [if_neg hp, if_neg hc] at h
      exact pyFloatCore_nonneg h

theorem parseReviewCount_eq_none_of_no_digit {s : List Char}
    (h : ∀ c ∈ s, c.isDigit = false) : parseReviewCount s = none := by
  unfold parseReviewCount
  rcases hsp : pySplitWs s with _ | ⟨w, ws⟩
  · rfl
  · refine pyInt_eq_none_of_no_digit ?_
    intro c hc
    have h1 := mem_of_mem_pyStrip hc
    have h2 := (List.mem_filter.mp h1).1
    exact h c (mem_of_mem_pySplitWs_head hsp h2)

theorem parseReviewCount_nonneg_of_no_neg {s : List Char} (hneg : '-' ∉ s) {n : Int}
    (h : parseReviewCount s = some n) : 0 ≤ n := by
  unfold parseReviewCount at h
  rcases hsp : pySplitWs s with _ | ⟨w, ws⟩
  · rw [hsp] at h
    exact absurd h (by simp)
  · rw [hsp] at h
    refine pyInt_nonneg_of_no_neg ?_ h
    intro hc
    have h1 := mem_of_mem_pyStrip hc
    have h2 := (List.mem_filter.mp h1).1
    exact hneg (mem_of_mem_pySplitWs_head hsp h2)

theorem parseReviewsAverage_nonneg_of_no_neg {s : List Char} (hneg : '-' ∉ s) {q : ℚ}
    (h : parseReviewsAverage s = some q) : 0 ≤ q := by
  unfold parseReviewsAverage at h
  rcases hsp : pySplitWs s with _ | ⟨w, ws⟩
  · rw [hsp] at h
    exact absurd h (by simp)
  · rw [hsp] at h
    refine pyFloat_nonneg_of_no_neg ?_ h
    intro hc
    have h1 := mem_of_mem_pyStrip hc
    rcases List.mem_map.mp h1 with ⟨c, hcw, hceq⟩
    by_cases hcomma : c = ','
    · rw [if_pos hcomma] at hceq
      exact absurd hceq (by decide)
    · rw [if_neg hcomma] at hceq
      subst hceq
      exact hneg (mem_of_mem_pySplitWs_head hsp hcw)

/-! Lemmas about the extractor and driver models. -/

theorem extract_coordinates_pair (url : List Char) :
    extract_coordinates_from_url url = (none, none) ∨
      ∃ a b, extract_coordinates_from_url url = (some a, some b) := by
  unfold extract_coordinates_from_url
  split
  · split
    · exact Or.inr ⟨_, _, rfl⟩
    · exact Or.inl rfl
  · exact Or.inl rfl

theorem scrape_fields {page : PageModel} {b : Business}
    (h : scrape_business_details page = some b) :
    b.name = some ((page.nameAttr.getD none).getD []) ∧
    b.address = fieldFromProbe page.address ∧
    b.website = fieldFromProbe page.website ∧
    b.phone_number = fieldFromProbe page.phone_number ∧
    b.reviews_count = countFromProbe page.reviews_count ∧
    b.reviews_average = avgFromProbe page.reviews_average ∧
    b.latitude = (extract_coordinates_from_url page.url).1 ∧
    b.longitude = (extract_coordinates_from_url page.url).2 := by
  unfold scrape_business_details at h
  split at h
  · exact absurd h (by simp)
  · split at h
    · exact absurd h (by simp)
    · rename_i nm heq
      injection h with h
      subst h
      refine ⟨by rw [heq]; rfl, ?_, ?_, ?_, ?_, ?_, rfl, rfl⟩
      · cases page.address <;> rfl
      · cases page.website <;> rfl
      · cases page.phone_number <;> rfl
      · cases page.reviews_count <;> rfl
      · rcases page.reviews_average with s | _ | _ | _
        · rcases s with _ | s <;> rfl
        · rfl
        · rfl
        · rfl

theorem scrape_isSome (page : PageModel) :
    (scrape_business_details page).isSome = outerTryOk page := by
  unfold scrape_business_details outerTryOk
  cases hc : page.clickOk <;> cases hn : page.nameAttr <;> simp [hc, hn]

theorem length_filterMap_countP {α β : Type} (f : α → Option β) (l : List α) :
    (l.filterMap f).length = l.countP (fun x => (f x).isSome) := by
  induction l with
  | nil => rfl
  | cons x xs ih =>
    rw [List.filterMap_cons, List.countP_cons]
    rcases hf : f x with _ | y
    · simp [hf, ih]
    · simp [hf, ih]

/-! Lemmas about the scroll loop. -/

theorem scrollGoF_step (counts : Nat → Nat) (total fuel i prev same : Nat) :
    scrollGoF counts total (fuel + 1) i prev same =
      if counts i ≥ total then some (i + 1, counts i)
      else if counts i = prev then
        if same + 1 ≥ 2 then some (i + 1, counts i)
        else scrollGoF counts total fuel (i + 1) prev (same + 1)
      else scrollGoF counts total fuel (i + 1) (counts i) 0 := rfl

theorem scrollGoF_halts (counts : Nat → Nat) (total N : Nat)
    (h : total ≤ counts N ∨ ∀ m, N ≤ m → counts m = counts N) :
    ∀ (d i prev same : Nat), i + d = N →
      (scrollGoF counts total (d + 3) i prev same).isSome = true := by
  intro d
  induction d with
  | zero =>
    intro i prev same hi
    rw [Nat.add_zero] at hi
    subst hi
    rcases h with h | h
    · rw [show (0 + 3 : Nat) = 2 + 1 from rfl, scrollGoF_step, if_pos h]
      rfl
    · by_cases htot : total ≤ counts i
      · rw [show (0 + 3 : Nat) = 2 + 1 from rfl, scrollGoF_step, if_pos htot]
        rfl
      · rw [show (0 + 3 : Nat) = 2 + 1 from rfl, scrollGoF_step, if_neg htot]
        by_cases hprev : counts i = prev
        · rw [if_pos hprev]
          by_cases hsame : same + 1 ≥ 2
          · rw [if_pos hsame]
            rfl
          · rw [if_neg hsame, show (2 : Nat) = 1 + 1 from rfl, scrollGoF_step]
            have hc1 : counts (i + 1) = counts i := by
              rw [h (i + 1) (Nat.le_succ i), h i le_rfl]
            rw [hc1, if_neg htot, if_pos hprev, if_pos (by omega)]
            rfl
        · rw [if_neg hprev, show (2 : Nat) = 1 + 1 from rfl, scrollGoF_step]
          have hc1 : counts (i + 1) = counts i := by
            rw [h (i + 1) (Nat.le_succ i), h i le_rfl]
          rw [hc1, if_neg htot, if_pos rfl, if_neg (by omega),
            show (1 : Nat) = 0 + 1 from rfl, scrollGoF_step]
          have hc2 : counts (i + 1 + 1) = counts i := by
            rw [h (i + 1 + 1) (by omega), h i le_rfl]
          rw [hc2, if_neg htot, if_pos rfl, if_pos (by omega)]
          rfl
  | succ d ih =>
    intro i prev same hi
    rw [show (d + 1 + 3 : Nat) = (d + 3) + 1 from by omega, scrollGoF_step]
    by_cases htot : total ≤ counts i
    · rw [if_pos htot]
      rfl
    · rw [if_neg htot]
      by_cases hprev : counts i = prev
      · rw [if_pos hprev]
        by_cases hsame : same + 1 ≥ 2
        · rw [if_pos hsame]
          rfl
        · rw [if_neg hsame]
          exact ih (i + 1) prev (same + 1) (by omega)
      · rw [if_neg hprev]
        exact ih (i + 1) (counts i) 0 (by omega)

theorem scrollGo_step {E : Type} (total : Nat) (pg : List E) (rest : List (List E))
    (prev same polls : Nat) :
    scrollGo total (pg :: rest) prev same polls =
      if pg.length ≥ total then some (pg, polls + 1)
      else if pg.length = prev then
        if same + 1 ≥ 2 then some (pg, polls + 1)
        else scrollGo total rest prev (same + 1) (polls + 1)
      else scrollGo total rest pg.length 0 (polls + 1) := rfl

/-! The claims. -/

/-- C1 (counterexample): for the listing loader run against per-poll counts
[5, 12, 12, 12] with target 100, the loop does NOT stop after the third
poll: it performs four polls (the count is first unchanged at the third
poll, and only the fourth poll sees it unchanged for the second consecutive
iteration, reaching the `same_count_iterations >= 2` break).  It does return
12 listings. -/
theorem c1_counterexample :
    (scroll_and_load_listings id [List.range 5, List.range 12, List.range 12, List.range 12]
          100).map (fun r => r.2) ≠ some 3 ∧
    (scroll_and_load_listings id [List.range 5, List.range 12, List.range 12, List.range 12]
          100).map (fun r => r.2) = some 4 ∧
    (scroll_and_load_listings id [List.range 5, List.range 12, List.range 12, List.range 12]
          100).map (fun r => r.1.length) = some 12 := by decide

/-- C1 (amended): for the listing loader run with target 100 against a
per-poll listing-link count sequence of [5, 12, 12, 12], the loop stops
during the fourth poll (the count having then been unchanged for two
consecutive iterations) and returns 12 listings, each the parent container
of a link. -/
theorem c1_stall_after_fourth_poll {E : Type} (parent : E → E) (p1 p2 p3 p4 : List E)
    (h1 : p1.length = 5) (h2 : p2.length = 12) (h3 : p3.length = 12) (h4 : p4.length = 12) :
    scroll_and_load_listings parent [p1, p2, p3, p4] 100 = some (p4.map parent, 4) ∧
    (p4.map parent).length = 12 := by
  have ht : p4.take 100 = p4 := List.take_of_length_le (by simp [h4])
  constructor
  · unfold scroll_and_load_listings
    simp [scrollGo_step, h1, h2, h3, h4, ht]
  · simp [h4]

/-- C1 (witness): the amended statement at concrete page states. -/
theorem c1_witness :
    scroll_and_load_listings Nat.succ
        [List.range 5, List.range 12, List.range 12, List.range 12] 100 =
      some ((List.range 12).map Nat.succ, 4) ∧
    ((List.range 12).map Nat.succ).length = 12 :=
  c1_stall_after_fourth_poll Nat.succ (List.range 5) (List.range 12) (List.range 12)
    (List.range 12) (by decide) (by decide) (by decide) (by decide)

/-- C2: when no query is provided by either the `--search` flag or the input
file (file missing, or containing only blank lines), `main` prints the error
message and terminates before any browser session is opened — but via
`sys.exit()` *with no argument*, whose exit status is 0, not the non-zero
indicator the claim states. -/
theorem c2_no_query_exit :
    mainPre { search := none, total := none, output := pys "google_maps_results",
              headless := false } none = MainOutcome.exitNoQuery true 0 ∧
    mainPre { search := none, total := none, output := pys "google_maps_results",
              headless := false } (some [pys "   ", pys ""]) =
      MainOutcome.exitNoQuery true 0 ∧
    sysExitNoArgStatus = 0 := by decide

/-- C3 (counterexample): a field whose UI region is absent — `is_visible`
returns `False` without raising — is NOT set to the empty string: the
record is produced with that field left as the dataclass default `None`.
Only a raise inside the field's `try` yields `""`. -/
theorem c3_counterexample :
    (scrape_business_details pageC3).map Business.address = some none ∧
    (scrape_business_details pageC3).map Business.address ≠ some (some []) ∧
    pageC3.address = TextProbe.hidden := by decide

/-- C3 (amended): in the detail extractor each of address, website and
phone_number is set to the empty string when its existence check or its
extraction raises, and left absent (`None`) when the existence check
reports the region not visible; reviews_count/reviews_average are absent in
every failure mode; and each field's value is a function of that field's
own probe alone, so a failure on one field never aborts extraction of the
others. -/
theorem c3_field_defaults {page : PageModel} {b : Business}
    (h : scrape_business_details page = some b) :
    b.address = fieldFromProbe page.address ∧
    b.website = fieldFromProbe page.website ∧
    b.phone_number = fieldFromProbe page.phone_number ∧
    b.reviews_count = countFromProbe page.reviews_count ∧
    b.reviews_average = avgFromProbe page.reviews_average := by
  obtain ⟨-, h1, h2, h3, h4, h5, -, -⟩ := scrape_fields h
  exact ⟨h1, h2, h3, h4, h5⟩

/-- C3 (witness): the amended statement at a concrete page exercising a
visible field, a hidden field, a raising check and a raising extraction. -/
theorem c3_witness :
    scrape_business_details pageC3w = some businessC3w ∧
    (businessC3w.address = fieldFromProbe pageC3w.address ∧
     businessC3w.website = fieldFromProbe pageC3w.website ∧
     businessC3w.phone_number = fieldFromProbe pageC3w.phone_number ∧
     businessC3w.reviews_count = countFromProbe pageC3w.reviews_count ∧
     businessC3w.reviews_average = avgFromProbe pageC3w.reviews_average) :=
  ⟨by decide, c3_field_defaults (by decide)⟩

/-- C4 (counterexample): the detail extractor performs no range validation,
so a review-count display text of "-5 reviews" produces a record with
`reviews_count = -5` (negative) and an average attribute of "9.9 stars"
produces `reviews_average = 9.9 > 5`, violating the claimed data-model
ranges. -/
theorem c4_counterexample :
    (scrape_business_details pageC4).map specReviewRangesOk = some false ∧
    (scrape_business_details pageC4).map Business.reviews_count = some (some (-5)) ∧
    (scrape_business_details pageC4).map Business.reviews_average =
      some (some (mkRat 99 10)) := by decide

/-- C4 (amended): every produced record's reviews_count/reviews_average is
absent or exactly the value parsed from the corresponding visible UI
string; in particular the claimed ranges hold whenever those strings carry
no minus sign (and the code itself enforces no range check). -/
theorem c4_review_values {page : PageModel} {b : Business}
    (h : scrape_business_details page = some b) :
    (∀ n, b.reviews_count = some n →
        ∃ s, page.reviews_count = TextProbe.vis s ∧ parseReviewCount s = some n) ∧
    (∀ q, b.reviews_average = some q →
        ∃ s, page.reviews_average = AttrProbe.vis (some s) ∧ parseReviewsAverage s = some q) ∧
    (∀ s n, page.reviews_count = TextProbe.vis s → '-' ∉ s →
        b.reviews_count = some n → 0 ≤ n) ∧
    (∀ s q, page.reviews_average = AttrProbe.vis (some s) → '-' ∉ s →
        b.reviews_average = some q → 0 ≤ q) := by
  obtain ⟨-, -, -, -, hcount, havg, -, -⟩ := scrape_fields h
  refine ⟨?_, ?_, ?_, ?_⟩
  · intro n hn
    rw [hcount] at hn
    rcases hp : page.reviews_count with s | _ | _ | _ <;> rw [hp] at hn
    · exact ⟨s, rfl, hn⟩
    · exact absurd hn (by simp [countFromProbe])
    · exact absurd hn (by simp [countFromProbe])
    · exact absurd hn (by simp [countFromProbe])
  · intro q hq
    rw [havg] at hq
    rcases hp : page.reviews_average with s | _ | _ | _ <;> rw [hp] at hq
    · rcases s with _ | s
      · exact absurd hq (by simp [avgFromProbe])
      · exact ⟨s, rfl, hq⟩
    · exact absurd hq (by simp [avgFromProbe])
    · exact absurd hq (by simp [avgFromProbe])
    · exact absurd hq (by simp [avgFromProbe])
  · intro s n hp hneg hn
    rw [hcount, hp] at hn
    exact parseReviewCount_nonneg_of_no_neg hneg hn
  · intro s q hp hneg hq
    rw [havg, hp] at hq
    exact parseReviewsAverage_nonneg_of_no_neg hneg hq

/-- C4 (witness): the amended statement at a concrete well-behaved page. -/
theorem c4_witness :
    businessC4w.reviews_count = some 12 ∧ (0 : Int) ≤ 12 ∧
    businessC4w.reviews_average = some (mkRat 24 5) ∧ (0 : ℚ) ≤ mkRat 24 5 :=
  ⟨by decide,
   (@c4_review_values pageC4w businessC4w (by decide)).2.2.1 (pys "12 reviews") 12
     (by decide) (by decide) (by decide),
   by decide,
   (@c4_review_values pageC4w businessC4w (by decide)).2.2.2 (pys "4.8 stars") (mkRat 24 5)
     (by decide) (by decide) (by decide)⟩

/-- C5 (counterexample): the coordinate extractor is not (absent, absent) on
every string lacking a `/@` segment: on "1.5,2.5", which contains no `/@`
at all, `split('/@')[-1]` is the whole string and the parse succeeds,
returning (1.5, 2.5). -/
theorem c5_counterexample :
    hasSA (pys "1.5,2.5") = false ∧
    extract_coordinates_from_url (pys "1.5,2.5") =
      (some (mkRat 3 2), some (mkRat 5 2)) := by decide

/-- C5 (amended): the coordinate extractor is total (it returns a pair on
every input, by construction), and on every URL whose text after the LAST
`/@` occurrence starts with `lat,lng,` (floats before the next `/`), it
returns the parsed pair.  For other inputs it applies the same parse to the
text after the last `/@` (or to the whole string when `/@` is absent), so
it returns (absent, absent) exactly when that parse fails. -/
theorem c5_last_segment_parse (a lat lng rest : List Char) (x y : ℚ)
    (hm : hasSA (lat ++ ',' :: (lng ++ ',' :: rest)) = false)
    (hlatS : '/' ∉ lat) (hlatC : ',' ∉ lat)
    (hlngS : '/' ∉ lng) (hlngC : ',' ∉ lng)
    (hx : pyFloat lat = some x) (hy : pyFloat lng = some y) :
    extract_coordinates_from_url (a ++ '/' :: '@' :: (lat ++ ',' :: (lng ++ ',' :: rest))) =
      (some x, some y) := by
  have hlast := (splitSA_append_sep (lat ++ ',' :: (lng ++ ',' :: rest)) hm a).2
  unfold extract_coordinates_from_url
  rw [hlast]
  have hw : ('/' : Char) ∉ lat ++ ',' :: (lng ++ [',']) := by
    intro hmem
    rcases List.mem_append.mp hmem with h1 | h1
    · exact hlatS h1
    · rcases List.mem_cons.mp h1 with h2 | h2
      · exact absurd h2 (by decide)
      · rcases List.mem_append.mp h2 with h3 | h3
        · exact hlngS h3
        · rcases List.mem_cons.mp h3 with h4 | h4
          · exact absurd h4 (by decide)
          · exact absurd h4 (by simp)
  have hre : lat ++ ',' :: (lng ++ ',' :: rest) = (lat ++ ',' :: (lng ++ [','])) ++ rest := by
    simp
  rw [hre, splitChar_headD_append '/' (lat ++ ',' :: (lng ++ [','])) hw rest]
  have hre2 :
      (lat ++ ',' :: (lng ++ [','])) ++ (splitChar '/' rest).headD [] =
        lat ++ ',' :: (lng ++ ',' :: (splitChar '/' rest).headD []) := by
    simp
  rw [hre2, splitChar_append_sep ',' lat hlatC, splitChar_append_sep ',' lng hlngC]
  simp [hx, hy]

/-- C5 (witness): the amended statement at a concrete well-formed URL. -/
theorem c5_witness :
    extract_coordinates_from_url
        (pys "https://maps" ++ '/' :: '@' ::
          (pys "1.5" ++ ',' :: (pys "-2.25" ++ ',' :: pys "14z/data"))) =
      (some (mkRat 3 2), some (mkRat (-9) 4)) :=
  c5_last_segment_parse (pys "https://maps") (pys "1.5") (pys "-2.25") (pys "14z/data")
    (mkRat 3 2) (mkRat (-9) 4) (by decide) (by decide) (by decide) (by decide) (by decide)
    (by decide) (by decide)

/-- C6: in every record the detail extractor produces, latitude and
longitude are both present or both absent: the single URL parse fails
atomically. -/
theorem c6_lat_lng_together {page : PageModel} {b : Business}
    (h : scrape_business_details page = some b) :
    b.latitude.isSome = b.longitude.isSome := by
  obtain ⟨-, -, -, -, -, -, hla, hlo⟩ := scrape_fields h
  rw [hla, hlo]
  rcases extract_coordinates_pair page.url with hp | ⟨u, v, hp⟩
  · rw [hp]
  · rw [hp]
    rfl

/-- C6 (witness): a concrete record with both coordinates present. -/
theorem c6_witness :
    scrape_business_details pageC6w = some businessC6w ∧
    businessC6w.latitude.isSome = businessC6w.longitude.isSome :=
  ⟨by decide, @c6_lat_lng_together pageC6w businessC6w (by decide)⟩

/-- C7: numeric field parsing: "1,234 reviews" yields reviews_count 1234
(commas stripped, unit word dropped), "4,5 stars" yields reviews_average
4.5 (comma decimal separator normalized to a dot), and a review-count
string containing no digit at all (such as "", "no reviews") parses to
an absent reviews_count. -/
theorem c7_numeric_parsing :
    (scrape_business_details pageC7).map Business.reviews_count = some (some 1234) ∧
    (scrape_business_details pageC7).map Business.reviews_average =
      some (some (mkRat 9 2)) ∧
    (∀ s, (∀ c ∈ s, c.isDigit = false) → parseReviewCount s = none) := by
  refine ⟨by decide, by decide, ?_⟩
  intro s hs
  exact parseReviewCount_eq_none_of_no_digit hs

/-- C7 (witness): the digit-free case of the universal part, at "no
reviews". -/
theorem c7_witness : parseReviewCount (pys "no reviews") = none :=
  c7_numeric_parsing.2.2 (pys "no reviews") (by decide)

/-- C8: for the listing loader run with target 20 against per-poll counts
[5, 20, 45], the loop stops at the second poll (count >= target) and
returns exactly the first 20 listing containers — the parent of each
matched link. -/
theorem c8_target_reached {E : Type} (parent : E → E) (p1 p2 p3 : List E)
    (h1 : p1.length = 5) (h2 : p2.length = 20) (_h3 : p3.length = 45) :
    scroll_and_load_listings parent [p1, p2, p3] 20 = some ((p2.take 20).map parent, 2) ∧
    ((p2.take 20).map parent).length = 20 := by
  constructor
  · unfold scroll_and_load_listings
    simp [scrollGo_step, h1, h2]
  · simp [h2]

/-- C8 (witness): the statement at concrete page states. -/
theorem c8_witness :
    scroll_and_load_listings Nat.succ [List.range 5, List.range 20, List.range 45] 20 =
      some (((List.range 20).take 20).map Nat.succ, 2) ∧
    (((List.range 20).take 20).map Nat.succ).length = 20 :=
  c8_target_reached Nat.succ (List.range 5) (List.range 20) (List.range 45)
    (by decide) (by decide) (by decide)

/-- C9 (counterexample): a listing whose activation (click and settle)
succeeded can still contribute no record: if the subsequent name-attribute
read raises, the outer `except` drops the listing, so the final row count
can be smaller than the number of listings whose activation succeeded. -/
theorem c9_counterexample :
    pageC9.clickOk = true ∧ runAll [[pageC9]] = [] := by decide

/-- C9 (amended): a listing contributes no record (and no partial record)
exactly when its outer try — activation (click/settle) AND the
name-attribute read — raised, and it never prevents later listings from
being processed: across all queries, the final collection's row count
equals the number of listings whose whole outer try succeeded, regardless
of per-field failures. -/
theorem c9_record_count (queries : List (List PageModel)) :
    (runAll queries).length =
      (queries.map (fun ps => ps.countP (fun p => outerTryOk p))).sum := by
  have hfun : (fun p : PageModel => (scrape_business_details p).isSome) =
      (fun p : PageModel => outerTryOk p) := funext scrape_isSome
  induction queries with
  | nil => rfl
  | cons ps qs ih =>
    simp only [runAll, List.map_cons, List.flatten_cons, List.length_append, List.sum_cons]
    simp only [runAll] at ih
    rw [ih]
    simp only [runQuery]
    rw [length_filterMap_countP, hfun]

/-- C10: the scroll-poll loop terminates for every per-poll count sequence
that eventually reaches the target or eventually stops changing: under
either hypothesis the loop halts within N + 3 polls. -/
theorem c10_scroll_terminates (counts : Nat → Nat) (total N : Nat)
    (h : total ≤ counts N ∨ ∀ m, N ≤ m → counts m = counts N) :
    (scrollGoF counts total (N + 3) 0 0 0).isSome = true :=
  scrollGoF_halts counts total N h N 0 0 0 (by omega)

/-- C10 (witness): the constant count sequence 7 with target 100 halts. -/
theorem c10_witness : (scrollGoF constCounts7 100 (0 + 3) 0 0 0).isSome = true :=
  c10_scroll_terminates constCounts7 100 0 (Or.inr (fun _ _ => rfl))

end Picker
